import Mathlib

/-!
Verification of the estate-sale-connect Netlify functions.

This file gives a shallow embedding, in Lean 4, of the policy logic of the
repository's request handlers:

* the lead access policy (`sanitizeLead` in
  `netlify/functions/secure-leads-api.js`),
* JWT-based request authentication (`authenticateRequest` in the same file),
* the fixed-window rate limiters (`checkRateLimit` in
  `secure-leads-api.js` and `isRateLimited` in `get-config.js`),
* the resend-verification handler and its sliding-window rate limiter
  (`netlify/functions/resend-verification.js`),
* the email-verification state machine (`netlify/functions/verify-email.js`),
* the lead-submission validator (`netlify/functions/validate-lead-data.js`),
* the pagination logic of the leads listing handler.

JavaScript data is modelled as follows: machine timestamps are `Int`
milliseconds (or seconds where the source uses seconds), nullable / possibly
absent values are `Option`, strings are Lean `String` over `Char` lists, and
monetary values are `Rat` (the source only defaults and passes prices through,
so no float rounding is observable).  External collaborators (the Supabase
datastore, the `jsonwebtoken` library, the email service) are modelled through
the narrow interfaces the handlers use: the datastore is an explicit list of
records threaded through each handler, and JWT verification is an oracle
parameter returning the decoded payload exactly when signature verification
and decoding succeed.
-/

namespace EstateSaleConnect

/-! ## JavaScript primitives -/

/-- Truthiness of a JS value that is either `null`/absent or a string:
`null`, `undefined` and the empty string are falsy. -/
def jsTruthyStr : Option String → Bool
  | none => false
  | some s => s ≠ ""

/-- The set of characters matched by the JS `\s` class (used by `trim` and
the validators' regexes). -/
def isSpaceJS (c : Char) : Bool :=
  c = ' ' ∨ c = '\t' ∨ c = '\n' ∨ c = '\r' ∨ c = '\x0b' ∨ c = '\x0c' ∨
  c = ' ' ∨ c = ' ' ∨ (' ' ≤ c ∧ c ≤ ' ') ∨
  c = ' ' ∨ c = ' ' ∨ c = ' ' ∨ c = ' ' ∨
  c = '　' ∨ c = '﻿'

/-- JS `String.prototype.trim` on a character list. -/
def trimChars (l : List Char) : List Char :=
  ((l.dropWhile isSpaceJS).reverse.dropWhile isSpaceJS).reverse

/-- JS `String.prototype.trim`. -/
def jsTrim (s : String) : String :=
  String.mk (trimChars s.toList)

/-- JS `String.prototype.toLowerCase` (ASCII range, which is all the source
compares against). -/
def jsToLower (s : String) : String :=
  String.mk (s.toList.map Char.toLower)

/-- JS `String.prototype.startsWith` over character lists (a plain prefix
test). -/
def listIsPrefixOf : List Char → List Char → Bool
  | [], _ => true
  | _ :: _, [] => false
  | p :: ps, c :: cs => p == c && listIsPrefixOf ps cs

/-- See `listIsPrefixOf`. -/
def jsStartsWith (s pre : String) : Bool :=
  listIsPrefixOf pre.toList s.toList

/-- JS `String.prototype.split(' ')`: split on every single space, keeping
empty pieces. -/
def splitOnSpaceAux (acc : List Char) : List Char → List (List Char)
  | [] => [acc.reverse]
  | ' ' :: rest => acc.reverse :: splitOnSpaceAux [] rest
  | c :: rest => splitOnSpaceAux (c :: acc) rest

/-- See `splitOnSpaceAux`. -/
def jsSplitSpace (s : String) : List String :=
  (splitOnSpaceAux [] s.toList).map String.mk

/-- JS `Array.prototype.join(' ')`. -/
def joinWithSpace : List String → String
  | [] => ""
  | [x] => x
  | x :: xs => x ++ " " ++ joinWithSpace xs

/-! ## Lead access policy (`sanitizeLead`, secure-leads-api.js lines 243-285)

The repository contains two drafts of `sanitizeLead` (lines 243-285 over
camelCase demo records and lines 624-666 over snake_case datastore rows).
Their redaction logic is character-for-character identical; the embedding
below is the shared logic, with the stored lead's optional fields modelled
as `Option`. -/

/-- A stored lead record as `sanitizeLead` reads it.  `details` is `none`
when the stored value is missing or `null`; `photos` is `none` when the
stored value is not an array (`Array.isArray` fails); `price` is `none`
when missing or `null`; `exclusivePurchasedBy` is `none` when `null`. -/
structure StoredLead where
  id : Nat
  firstName : String
  lastName : String
  email : String
  phone : String
  address : String
  zipCode : String
  propertyType : String
  timeline : String
  details : Option String
  photos : Option (List String)
  dateSubmitted : String
  price : Option Rat
  exclusivePurchasedBy : Option String
  exclusivePurchaseDate : Option String
  created_at : Int
  deriving Repr, DecidableEq

/-- The authenticated caller as produced by `authenticateRequest`. -/
structure AuthUser where
  userId : Nat
  email : String
  companyName : String
  subscriptionStatus : String
  deriving Repr, DecidableEq

/-- The caller-visible projection of a lead: the eleven always-visible
fields plus the five contact fields. -/
structure SanitizedLead where
  id : Nat
  propertyType : String
  timeline : String
  details : String
  photos : List String
  zipCode : String
  dateSubmitted : String
  price : Rat
  isInExclusiveWindow : Bool
  exclusivePurchasedBy : Option String
  exclusivePurchaseDate : Option String
  firstName : String
  lastName : String
  email : String
  phone : String
  address : String
  deriving Repr, DecidableEq

/-- Milliseconds in 24 hours (`24 * 60 * 60 * 1000`). -/
def exclusiveWindowMs : Int := 24 * 60 * 60 * 1000

/-- Source: `hoursSinceSubmission < 24 && !lead.exclusivePurchasedBy`;
the source computes `(now - submissionTime) / (1000*60*60) < 24` over exact
millisecond differences, which is equivalent to the integer comparison
below. -/
def isInExclusiveWindow (now : Int) (lead : StoredLead) : Bool :=
  (now - lead.created_at < exclusiveWindowMs) && !(jsTruthyStr lead.exclusivePurchasedBy)

/-- Source: `user.subscriptionStatus === 'active' && !lead.exclusivePurchasedBy`. -/
def hasContactAccess (user : AuthUser) (lead : StoredLead) : Bool :=
  (user.subscriptionStatus == "active") && !(jsTruthyStr lead.exclusivePurchasedBy)

/-- Default lead price used by `lead.price || 39.99`. -/
def defaultLeadPrice : Rat := 3999 / 100

/-- Source: `lead.price || 39.99`; missing, `null` and `0` fall back to the
default. -/
def jsPriceOrDefault : Option Rat → Rat
  | none => defaultLeadPrice
  | some p => if p = 0 then defaultLeadPrice else p

/-- Source: `sanitizeLead(lead, user)` (secure-leads-api.js, lines 243-285), with
the read of `Date.now()` made an explicit `now` argument. -/
def sanitizeLead (now : Int) (lead : StoredLead) (user : AuthUser) : SanitizedLead :=
  let window := isInExclusiveWindow now lead
  let access := hasContactAccess user lead
  { id := lead.id
    propertyType := lead.propertyType
    timeline := lead.timeline
    details := lead.details.getD ""
    photos := lead.photos.getD []
    zipCode := lead.zipCode
    dateSubmitted := lead.dateSubmitted
    price := jsPriceOrDefault lead.price
    isInExclusiveWindow := window
    exclusivePurchasedBy := lead.exclusivePurchasedBy
    exclusivePurchaseDate := lead.exclusivePurchaseDate
    firstName := if access then lead.firstName else "Subscribe"
    lastName := if access then lead.lastName else "to view"
    email := if access then lead.email else "subscription@required.com"
    phone := if access then lead.phone else "***-***-****"
    address := if access then lead.address else "Subscription required to view address" }

/-- The five contact fields of a projection, as a tuple. -/
def contactFields (s : SanitizedLead) : String × String × String × String × String :=
  (s.firstName, s.lastName, s.email, s.phone, s.address)

/-- The five raw contact fields of a stored lead, as a tuple. -/
def rawContactFields (l : StoredLead) : String × String × String × String × String :=
  (l.firstName, l.lastName, l.email, l.phone, l.address)

/-- The five fixed placeholder values of the redacted projection. -/
def placeholderContactFields : String × String × String × String × String :=
  ("Subscribe", "to view", "subscription@required.com", "***-***-****",
   "Subscription required to view address")

/-! ## Request authentication (`authenticateRequest`, secure-leads-api.js lines 198-240)

`jwt.verify` belongs to the external `jsonwebtoken` library; per the spec's
token contract it is modelled as an oracle `verify : String → Option TokenClaims`
that returns the decoded payload exactly when signature verification and
payload decoding succeed, and `none` (the thrown error, caught by the
handler) otherwise. -/

/-- The decoded payload of a session token. -/
structure TokenClaims where
  userId : Nat
  email : String
  companyName : String
  subscriptionStatus : String
  iat : Int
  exp : Int
  deriving Repr, DecidableEq

/-- The possible outcomes of `authenticateRequest`, one per distinct
`{ success: false, error }` value plus the success case. -/
inductive AuthOutcome where
  /-- 'No valid authorization token provided'. -/
  | noHeader
  /-- 'Invalid token' (the catch branch around `jwt.verify`). -/
  | invalidToken
  /-- 'Token expired'. -/
  | tokenExpired
  /-- 'Active subscription required'. -/
  | subscriptionRequired
  /-- `{ success: true, user }`. -/
  | ok (user : AuthUser)
  deriving Repr, DecidableEq

/-- Source: `authenticateRequest(event)` (secure-leads-api.js lines 198-240);
`authHeader` is the `Authorization` header if present, `nowSec` is
`Math.floor(Date.now() / 1000)`. -/
def authenticateRequest (verify : String → Option TokenClaims)
    (authHeader : Option String) (nowSec : Int) : AuthOutcome :=
  match authHeader with
  | none => .noHeader
  | some h =>
    if !jsStartsWith h "Bearer " then .noHeader
    else
      let token := String.mk (h.toList.drop 7)
      match verify token with
      | none => .invalidToken
      | some decoded =>
        if decoded.exp < nowSec then .tokenExpired
        else if decoded.subscriptionStatus ≠ "active" then .subscriptionRequired
        else .ok { userId := decoded.userId, email := decoded.email,
                   companyName := decoded.companyName,
                   subscriptionStatus := decoded.subscriptionStatus }

/-! ## Fixed-window rate limiter
(`checkRateLimit`, secure-leads-api.js lines 460-496, with
`maxRequests = 1000`, `windowMs = 3600000`; and `isRateLimited`,
get-config.js lines 192-226, with `maxRequests = 60`, identical logic).

The per-key entry of the in-memory `Map`; a key that is not in the map is
`none`. -/

/-- One entry of the rate-limit `Map`: `{ count, resetTime }`. -/
structure RLEntry where
  count : Nat
  resetTime : Int
  deriving Repr, DecidableEq

/-- One call of the fixed-window limiter for a single key: returns whether
the call is allowed together with the updated entry for that key. -/
def rateLimitStep (maxRequests : Nat) (windowMs : Int) (now : Int)
    (st : Option RLEntry) : Bool × RLEntry :=
  match st with
  | none => (true, { count := 1, resetTime := now + windowMs })
  | some e =>
    if now > e.resetTime then (true, { count := 1, resetTime := now + windowMs })
    else if e.count ≥ maxRequests then (false, e)
    else (true, { count := e.count + 1, resetTime := e.resetTime })

/-- Iterate `rateLimitStep` over a sequence of call times for one key,
collecting the allow/deny answers. -/
def runRateLimit (maxRequests : Nat) (windowMs : Int) :
    List Int → Option RLEntry → List Bool × Option RLEntry
  | [], st => ([], st)
  | t :: ts, st =>
    let step := rateLimitStep maxRequests windowMs t st
    let rest := runRateLimit maxRequests windowMs ts (some step.2)
    (step.1 :: rest.1, rest.2)

/-- Source: `checkRateLimit` of secure-leads-api.js; 1000 requests per hour per
`userId-clientIP` key. -/
def checkRateLimitLeads (now : Int) (st : Option RLEntry) : Bool × RLEntry :=
  rateLimitStep 1000 (60 * 60 * 1000) now st

/-- Source: `isRateLimited` of get-config.js; 60 requests per hour per client IP
(it returns `true` when the request is allowed). -/
def isRateLimitedConfig (now : Int) (st : Option RLEntry) : Bool × RLEntry :=
  rateLimitStep 60 (60 * 60 * 1000) now st

/-! ## Company records and the email-verification state machine
(verify-email.js). The Supabase `Companies` table is modelled as an explicit
list of records; each handler is a function from its inputs and the current
table to a response and the updated table. -/

/-- A row of the `Companies` table, restricted to the fields the
verification and resend handlers read or write. -/
structure Company where
  id : Nat
  email : String
  company_name : String
  first_name : String
  email_verified : Bool
  verification_token : Option String
  account_status : String
  created_at : Int
  deriving Repr, DecidableEq

/-- Source: `findCompanyByToken` (verify-email.js lines 184-219); the datastore
query `verification_token=eq.token`, taking the first match. -/
def findCompanyByToken (token : String) (store : List Company) : Option Company :=
  store.find? (fun c => c.verification_token == some token)

/-- Source: `updateCompanyVerification` (verify-email.js lines 222-265); the PATCH
on `id=eq.companyId` setting `email_verified`, `account_status` and clearing
`verification_token`. -/
def updateCompanyVerification (companyId : Nat) (store : List Company) : List Company :=
  store.map (fun c =>
    if c.id = companyId then
      { c with email_verified := true, account_status := "email_verified",
               verification_token := none }
    else c)

/-- The distinct responses of the verify-email handler. -/
inductive VerifyEmailResp where
  /-- 400 'Invalid verification token format' (also covers the missing-token
  400, which shares the status code). -/
  | badFormat
  /-- 404 'Invalid or expired verification token. The link may have already
  been used or expired.'. -/
  | notFound
  /-- 200 `{ success: true, alreadyVerified: true }`. -/
  | alreadyVerified
  /-- 400 'Verification token has expired.'. -/
  | expired
  /-- 200 'Email verified successfully!'. -/
  | verified
  deriving Repr, DecidableEq

/-- The token-format gate of verify-email.js lines 66-77: the token must be
purely alphanumeric (stripping non-alphanumerics must not shorten it) and at
least 16 characters. -/
def verifyTokenFormatOk (token : String) : Bool :=
  let sanitizedToken := String.mk (token.toList.filter (fun c => c.isAlphanum))
  sanitizedToken.length == token.length && decide (sanitizedToken.length ≥ 16)

/-- Milliseconds in the 24-hour verification window. -/
def verifyMaxAgeMs : Int := 24 * 60 * 60 * 1000

/-- The verify-email handler (verify-email.js lines 34-181), from the point
where the body has parsed to `{ token }`; `now` is `Date.now()`.  The welcome
email is a logged no-op in the source and cannot fail the operation. -/
def verifyEmailHandler (token : String) (now : Int) (store : List Company) :
    VerifyEmailResp × List Company :=
  if !verifyTokenFormatOk token then (.badFormat, store)
  else
    match findCompanyByToken token store with
    | none => (.notFound, store)
    | some company =>
      if company.email_verified then (.alreadyVerified, store)
      else if now - company.created_at > verifyMaxAgeMs then (.expired, store)
      else (.verified, updateCompanyVerification company.id store)

/-! ## Resend-verification handler (resend-verification.js)

Its rate limiter keeps, per email key, the list of recorded attempt
timestamps (`rateLimitStore`), filtered against a 15-minute sliding
window. -/

/-- Fifteen minutes in milliseconds. -/
def resendWindowMs : Int := 15 * 60 * 1000

/-- Max 3 emails per 15 minutes. -/
def resendMaxAttempts : Nat := 3

/-- Models `Math.min` over a nonempty list of timestamps (the source only applies
it to a list of length ≥ `resendMaxAttempts`). -/
def listMin : List Int → Int
  | [] => 0
  | x :: xs => xs.foldl min x

/-- Models `Math.ceil(x / 1000)` for an integer numerator of milliseconds. -/
def jsCeilDivThousand (x : Int) : Int := Int.fdiv (x + 999) 1000

/-- Outcome of `checkRateLimit(email)` (resend-verification.js lines
341-365). -/
inductive ResendRateCheck where
  | allowed
  | blocked (retryAfter : Int)
  deriving Repr, DecidableEq

/-- Source: `checkRateLimit(email)` over that email's recorded attempt list. -/
def resendCheckRateLimit (now : Int) (attempts : List Int) : ResendRateCheck :=
  let recentAttempts := attempts.filter (fun t => now - t < resendWindowMs)
  if recentAttempts.length ≥ resendMaxAttempts then
    let oldestAttempt := listMin recentAttempts
    .blocked (jsCeilDivThousand (resendWindowMs - (now - oldestAttempt)))
  else .allowed

/-- Source: `recordRateLimitAttempt(email)`; push the current time.  (The source's
opportunistic 10%-probability cleanup only deletes timestamps that are
already outside every future window, so it never changes an allow/deny
decision; record is modelled as the plain push.) -/
def recordRateLimitAttempt (now : Int) (attempts : List Int) : List Int :=
  attempts ++ [now]

/-- Source: `findCompanyByEmail` (resend-verification.js lines 197-228); the
datastore query `email=eq.email`, taking the first match. -/
def findCompanyByEmail (email : String) (store : List Company) : Option Company :=
  store.find? (fun c => c.email == email)

/-- Source: `updateVerificationToken` (resend-verification.js lines 231-272); PATCH
on `id=eq.companyId` setting a fresh `verification_token`. -/
def updateVerificationToken (companyId : Nat) (newToken : String)
    (store : List Company) : List Company :=
  store.map (fun c =>
    if c.id = companyId then { c with verification_token := some newToken } else c)

/-- The email-shape gate of resend-verification.js lines 67-78: the regex
`^[^\s@]+@[^\s@]+\.[^\s@]+$` plus `length ≤ 254`.  The regex accepts exactly
the strings with no whitespace, exactly one `@` with a nonempty part before
it, and a `.` in the domain that is neither its first nor its last
character. -/
def emailShapeOk (email : String) : Bool :=
  let l := email.toList
  let localPart := l.takeWhile (· ≠ '@')
  let domain := (l.dropWhile (· ≠ '@')).drop 1
  (l.countP (· = '@') == 1) && l.all (fun c => !isSpaceJS c) &&
  !localPart.isEmpty && ((domain.drop 1).dropLast.contains '.') &&
  decide (l.length ≤ 254)

/-- The distinct observable responses of the resend-verification handler;
two runs are caller-distinguishable exactly when they produce different
values (every constructor carries a distinct status code or body text). -/
inductive ResendResp where
  /-- 400 'Email address is required'. -/
  | missingEmail
  /-- 400 'Invalid email address format'. -/
  | invalidFormat
  /-- 200 'If an account with this email exists, a verification email has
  been sent.'. -/
  | genericOk
  /-- 200 'Your email is already verified.' with `alreadyVerified: true`. -/
  | alreadyVerifiedOk
  /-- 429 'Too many verification emails sent.' with `retryAfter`. -/
  | rateLimited (retryAfter : Int)
  /-- 200 'Verification email sent successfully!' — the body also carries
  `verificationUrl`. -/
  | sentOk (verificationUrl : String)
  deriving Repr, DecidableEq

/-- The resend-verification handler (lines 34-194), from the point where the
body has parsed to `{ email }`.  `attempts` is the rate-limit attempt list
recorded for `cleanEmail`; `newToken` is the value drawn from
`generateVerificationToken()`; `baseUrl` is `process.env.URL`.  Token update
and email delivery always succeed in the source (`sendVerificationEmail`
only logs), so their failure branches are unreachable. -/
def resendHandler (email : Option String) (store : List Company)
    (attempts : List Int) (now : Int) (newToken baseUrl : String) :
    ResendResp × List Company × List Int :=
  match email with
  | none => (.missingEmail, store, attempts)
  | some e =>
    if e = "" then (.missingEmail, store, attempts)
    else
      let cleanEmail := jsToLower (jsTrim e)
      if !emailShapeOk cleanEmail then (.invalidFormat, store, attempts)
      else
        match findCompanyByEmail cleanEmail store with
        | none => (.genericOk, store, attempts)
        | some company =>
          if company.email_verified then (.alreadyVerifiedOk, store, attempts)
          else
            match resendCheckRateLimit now attempts with
            | .blocked retryAfter => (.rateLimited retryAfter, store, attempts)
            | .allowed =>
              (.sentOk (baseUrl ++ "/company-verify-email.html?token=" ++ newToken),
               updateVerificationToken company.id newToken store,
               recordRateLimitAttempt now attempts)

/-! ## Lead-submission validator (`validateLeadData`, validate-lead-data.js
lines 117-260)

The `sanitizeText` helper chains five JS regex replacements; the functions
below implement the semantics of those global replaces (leftmost match,
removal, resume after the match) over character lists, then JS trim and
truncation. -/

/-- JS `\w`: ASCII letters, digits, underscore. -/
def isWordChar (c : Char) : Bool := c.isAlphanum || c = '_'

/-- Case-insensitive: does `s` start with pattern `pat`? -/
def startsWithCI : List Char → List Char → Bool
  | [], _ => true
  | _ :: _, [] => false
  | p :: ps, c :: cs => p.toLower == c.toLower && startsWithCI ps cs

/-- Index of the first case-insensitive occurrence of `pat` in a list. -/
def findSubCI (pat : List Char) : List Char → Option Nat
  | [] => none
  | c :: rest =>
    if startsWithCI pat (c :: rest) then some 0
    else (findSubCI pat rest).map (· + 1)

/-- Length of the match of `/<tag\b[^<]*(?:(?!<\/tag>)<[^<]*)*<\/tag>/i` at
the head of `s`, if any: the open tag with a word boundary, through the
first case-insensitive occurrence of the close tag. -/
def matchTagBlockLen (openTag closeTag : List Char) (s : List Char) : Option Nat :=
  if startsWithCI openTag s then
    let rest := s.drop openTag.length
    let boundaryOk := match rest with
      | [] => true
      | c :: _ => !isWordChar c
    if boundaryOk then
      (findSubCI closeTag rest).map (fun i => openTag.length + i + closeTag.length)
    else none
  else none

/-- Global removal of tag blocks (the `script` / `iframe` replacements of
`sanitizeText`): at each position remove a whole block match or keep one
character.  The first argument counts characters still to drop from the
current match, so the recursion is structural and computable by `decide`. -/
def removeTagBlocksAux (openTag closeTag : List Char) : Nat → List Char → List Char
  | _, [] => []
  | skip + 1, _ :: rest => removeTagBlocksAux openTag closeTag skip rest
  | 0, c :: rest =>
    match matchTagBlockLen openTag closeTag (c :: rest) with
    | some n => removeTagBlocksAux openTag closeTag (n - 1) rest
    | none => c :: removeTagBlocksAux openTag closeTag 0 rest

/-- See `removeTagBlocksAux`. -/
def removeTagBlocks (openTag closeTag : List Char) (l : List Char) : List Char :=
  removeTagBlocksAux openTag closeTag 0 l

/-- The literal of the `/javascript:/gi` replacement. -/
def javascriptProtocol : List Char := "javascript:".toList

/-- Global removal of the case-insensitive literal `javascript:` (skip
counter as in `removeTagBlocksAux`). -/
def removeJavascriptColonAux : Nat → List Char → List Char
  | _, [] => []
  | skip + 1, _ :: rest => removeJavascriptColonAux skip rest
  | 0, c :: rest =>
    if startsWithCI javascriptProtocol (c :: rest) then
      removeJavascriptColonAux 10 rest
    else c :: removeJavascriptColonAux 0 rest

/-- See `removeJavascriptColonAux`. -/
def removeJavascriptColon (l : List Char) : List Char :=
  removeJavascriptColonAux 0 l

/-- Length of the match of `/on\w+\s*=/i` at the head of the list, if any
(the pattern is deterministic: `\w` and `\s` are disjoint and neither
matches `=`). -/
def matchOnAttrLen : List Char → Option Nat
  | c1 :: c2 :: rest =>
    if c1.toLower == 'o' && c2.toLower == 'n' then
      let wordPart := rest.takeWhile isWordChar
      if wordPart.isEmpty then none
      else
        let afterWord := rest.drop wordPart.length
        let spacePart := afterWord.takeWhile isSpaceJS
        match afterWord.drop spacePart.length with
        | '=' :: _ => some (2 + wordPart.length + spacePart.length + 1)
        | _ => none
    else none
  | _ => none

/-- Global removal of `/on\w+\s*=/gi` (inline event-handler attributes),
skip counter as in `removeTagBlocksAux`. -/
def removeOnAttrsAux : Nat → List Char → List Char
  | _, [] => []
  | skip + 1, _ :: rest => removeOnAttrsAux skip rest
  | 0, c :: rest =>
    match matchOnAttrLen (c :: rest) with
    | some n => removeOnAttrsAux (n - 1) rest
    | none => c :: removeOnAttrsAux 0 rest

/-- See `removeOnAttrsAux`. -/
def removeOnAttrs (l : List Char) : List Char :=
  removeOnAttrsAux 0 l

/-- Global removal of `/<[^>]*>/g`: from each `<`, through the next `>`
(skip counter as in `removeTagBlocksAux`). -/
def stripAllTagsAux : Nat → List Char → List Char
  | _, [] => []
  | skip + 1, _ :: rest => stripAllTagsAux skip rest
  | 0, c :: rest =>
    if c = '<' then
      match rest.findIdx? (· = '>') with
      | some i => stripAllTagsAux (i + 1) rest
      | none => c :: stripAllTagsAux 0 rest
    else c :: stripAllTagsAux 0 rest

/-- See `stripAllTagsAux`. -/
def stripAllTags (l : List Char) : List Char :=
  stripAllTagsAux 0 l

/-- The `<script ...>...</script>` open/close literals. -/
def scriptOpen : List Char := "<script".toList

/-- See `scriptOpen`. -/
def scriptClose : List Char := "</script>".toList

/-- The `<iframe ...>...</iframe>` open/close literals. -/
def iframeOpen : List Char := "<iframe".toList

/-- See `iframeOpen`. -/
def iframeClose : List Char := "</iframe>".toList

/-- The cleaning chain of `sanitizeText`: script blocks, iframe blocks,
`javascript:` URIs, inline handler attributes, remaining markup, trim. -/
def sanitizeChars (l : List Char) : List Char :=
  trimChars (stripAllTags (removeOnAttrs (removeJavascriptColon
    (removeTagBlocks iframeOpen iframeClose
      (removeTagBlocks scriptOpen scriptClose l)))))

/-- Source: `sanitizeText(input, maxLength)` on a string input; clean, then
truncate to `maxLength`. -/
def sanitizeTextStr (s : String) (maxLength : Nat) : String :=
  String.mk ((sanitizeChars s.toList).take maxLength)

/-- Source: `sanitizePhone`; keep only `[0-9+\-() ]`, trim, and require a length
between 10 and 20 (otherwise the empty string). -/
def phoneAllowedChar (c : Char) : Bool :=
  c.isDigit || c = '+' || c = '-' || c = '(' || c = ')' || c = ' '

/-- See `phoneAllowedChar`. -/
def sanitizePhone (s : String) : String :=
  let cleaned := String.mk (trimChars (s.toList.filter phoneAllowedChar))
  if 10 ≤ cleaned.length ∧ cleaned.length ≤ 20 then cleaned else ""

/-- The raw request body of a lead submission.  A field is `none` when it is
absent or not a string (`typeof x !== 'string'` and JS-falsy non-strings
take the same branch in the source); `photoUrls` is the `photo-urls` key. -/
structure RawLead where
  firstName : Option String
  lastName : Option String
  email : Option String
  phone : Option String
  address : Option String
  propertyType : Option String
  timeline : Option String
  details : Option String
  photoUrls : Option String
  deriving Repr, DecidableEq

/-- The `sanitized` mapping built by `validateLeadData`; a field is `none`
when the source never assigns it. -/
structure LeadSanitized where
  firstName : Option String
  lastName : Option String
  email : Option String
  phone : Option String
  address : Option String
  propertyType : Option String
  timeline : Option String
  details : Option String
  photoUrls : String
  deriving Repr, DecidableEq

/-- The `{ data, errors }` result of `validateLeadData`. -/
structure LeadValidation where
  data : LeadSanitized
  errors : List String
  deriving Repr, DecidableEq

/-- The allowed property types. -/
def validPropertyTypes : List String := ["house", "condo", "apartment", "storage", "other"]

/-- The allowed timelines. -/
def validTimelines : List String := ["asap", "month", "1-3months", "flexible", "planning"]

/-- The firstName block of `validateLeadData`: required check, sanitize to
50 chars, non-empty check. -/
def firstNameBlock (errors : List String) (x : Option String) :
    List String × Option String :=
  match x with
  | none => (errors ++ ["First name is required"], none)
  | some s =>
    if s = "" then (errors ++ ["First name is required"], none)
    else
      let v := sanitizeTextStr s 50
      if v.length < 1 then (errors ++ ["First name cannot be empty"], some v)
      else (errors, some v)

/-- The lastName block (same shape as `firstNameBlock`). -/
def lastNameBlock (errors : List String) (x : Option String) :
    List String × Option String :=
  match x with
  | none => (errors ++ ["Last name is required"], none)
  | some s =>
    if s = "" then (errors ++ ["Last name is required"], none)
    else
      let v := sanitizeTextStr s 50
      if v.length < 1 then (errors ++ ["Last name cannot be empty"], some v)
      else (errors, some v)

/-- The email block: required, then trim + lower-case + shape test
(`isValidEmail` is the same regex-plus-length test as `emailShapeOk`). -/
def emailBlock (errors : List String) (x : Option String) :
    List String × Option String :=
  match x with
  | none => (errors ++ ["Email is required"], none)
  | some s =>
    if s = "" then (errors ++ ["Email is required"], none)
    else
      let cleanEmail := jsToLower (jsTrim s)
      if !emailShapeOk cleanEmail then (errors ++ ["Invalid email format"], none)
      else (errors, some cleanEmail)

/-- The phone block: required, then `sanitizePhone` must be non-empty. -/
def phoneBlock (errors : List String) (x : Option String) :
    List String × Option String :=
  match x with
  | none => (errors ++ ["Phone number is required"], none)
  | some s =>
    if s = "" then (errors ++ ["Phone number is required"], none)
    else
      let v := sanitizePhone s
      if v = "" then (errors ++ ["Invalid phone number format"], some v)
      else (errors, some v)

/-- The address block: required, sanitize to 200 chars, length ≥ 10. -/
def addressBlock (errors : List String) (x : Option String) :
    List String × Option String :=
  match x with
  | none => (errors ++ ["Address is required"], none)
  | some s =>
    if s = "" then (errors ++ ["Address is required"], none)
    else
      let v := sanitizeTextStr s 200
      if v.length < 10 then (errors ++ ["Address must be at least 10 characters"], some v)
      else (errors, some v)

/-- The propertyType block: enum membership. -/
def propertyTypeBlock (errors : List String) (x : Option String) :
    List String × Option String :=
  match x with
  | none => (errors ++ ["Invalid property type"], none)
  | some s =>
    if s = "" ∨ ¬ validPropertyTypes.contains s then
      (errors ++ ["Invalid property type"], none)
    else (errors, some s)

/-- The timeline block: enum membership. -/
def timelineBlock (errors : List String) (x : Option String) :
    List String × Option String :=
  match x with
  | none => (errors ++ ["Invalid timeline"], none)
  | some s =>
    if s = "" ∨ ¬ validTimelines.contains s then
      (errors ++ ["Invalid timeline"], none)
    else (errors, some s)

/-- The details block: required, sanitize to 2000 chars, length ≥ 10. -/
def detailsBlock (errors : List String) (x : Option String) :
    List String × Option String :=
  match x with
  | none => (errors ++ ["Details are required"], none)
  | some s =>
    if s = "" then (errors ++ ["Details are required"], none)
    else
      let v := sanitizeTextStr s 2000
      if v.length < 10 then (errors ++ ["Details must be at least 10 characters"], some v)
      else (errors, some v)

/-- The photo-URL block: split on spaces, drop blank entries, keep only
Cloudinary-upload or inline-data-image prefixes, cap at 12, re-join.  It
never produces an error. -/
def photoUrlsValue (x : Option String) : String :=
  match x with
  | none => ""
  | some s =>
    if s = "" then ""
    else
      let urls := (jsSplitSpace s).filter (fun url => jsTrim url ≠ "")
      let validUrls := urls.filter (fun url =>
        jsStartsWith url "https://res.cloudinary.com/" || jsStartsWith url "data:image/")
      joinWithSpace (validUrls.take 12)

/-- Source: `validateLeadData(data)` (validate-lead-data.js lines 117-260); the
eight field blocks run in source order, each appending its error messages
to the shared `errors` list. -/
def validateLeadData (d : RawLead) : LeadValidation :=
  let s1 := firstNameBlock [] d.firstName
  let s2 := lastNameBlock s1.1 d.lastName
  let s3 := emailBlock s2.1 d.email
  let s4 := phoneBlock s3.1 d.phone
  let s5 := addressBlock s4.1 d.address
  let s6 := propertyTypeBlock s5.1 d.propertyType
  let s7 := timelineBlock s6.1 d.timeline
  let s8 := detailsBlock s7.1 d.details
  { data := { firstName := s1.2, lastName := s2.2, email := s3.2, phone := s4.2,
              address := s5.2, propertyType := s6.2, timeline := s7.2,
              details := s8.2, photoUrls := photoUrlsValue d.photoUrls }
    errors := s8.1 }

/-- The error messages the firstName block contributes, as a function of
that field alone. -/
def firstNameErrors (x : Option String) : List String :=
  match x with
  | none => ["First name is required"]
  | some s =>
    if s = "" then ["First name is required"]
    else if (sanitizeTextStr s 50).length < 1 then ["First name cannot be empty"]
    else []

/-- The error messages the lastName block contributes. -/
def lastNameErrors (x : Option String) : List String :=
  match x with
  | none => ["Last name is required"]
  | some s =>
    if s = "" then ["Last name is required"]
    else if (sanitizeTextStr s 50).length < 1 then ["Last name cannot be empty"]
    else []

/-- The error messages the email block contributes. -/
def emailErrors (x : Option String) : List String :=
  match x with
  | none => ["Email is required"]
  | some s =>
    if s = "" then ["Email is required"]
    else if !emailShapeOk (jsToLower (jsTrim s)) then ["Invalid email format"]
    else []

/-- The error messages the phone block contributes. -/
def phoneErrors (x : Option String) : List String :=
  match x with
  | none => ["Phone number is required"]
  | some s =>
    if s = "" then ["Phone number is required"]
    else if sanitizePhone s = "" then ["Invalid phone number format"]
    else []

/-- The error messages the address block contributes. -/
def addressErrors (x : Option String) : List String :=
  match x with
  | none => ["Address is required"]
  | some s =>
    if s = "" then ["Address is required"]
    else if (sanitizeTextStr s 200).length < 10 then
      ["Address must be at least 10 characters"]
    else []

/-- The error messages the propertyType block contributes. -/
def propertyTypeErrors (x : Option String) : List String :=
  match x with
  | none => ["Invalid property type"]
  | some s =>
    if s = "" ∨ ¬ validPropertyTypes.contains s then ["Invalid property type"]
    else []

/-- The error messages the timeline block contributes. -/
def timelineErrors (x : Option String) : List String :=
  match x with
  | none => ["Invalid timeline"]
  | some s =>
    if s = "" ∨ ¬ validTimelines.contains s then ["Invalid timeline"]
    else []

/-- The error messages the details block contributes. -/
def detailsErrors (x : Option String) : List String :=
  match x with
  | none => ["Details are required"]
  | some s =>
    if s = "" then ["Details are required"]
    else if (sanitizeTextStr s 2000).length < 10 then
      ["Details must be at least 10 characters"]
    else []

/-! ## Pagination of the leads listing handler (secure-leads-api.js lines
152-172)

`parseInt(s)` (radix unspecified) and `Array.prototype.slice` are modelled
with JS semantics: `parseInt` skips leading whitespace, takes an optional
sign, recognises a `0x`/`0X` prefix as hexadecimal, parses the maximal
digit prefix and yields `NaN` (here `none`) when there is none; `slice`
clamps negative indices from the end of the array. -/

/-- Hexadecimal digit value. -/
def hexDigitVal (c : Char) : Option Nat :=
  if c.isDigit then some (c.toNat - '0'.toNat)
  else if 'a' ≤ c.toLower ∧ c.toLower ≤ 'f' then some (c.toLower.toNat - 'a'.toNat + 10)
  else none

/-- Digits to a natural number in the given base. -/
def digitsToNat (base : Nat) (ds : List Nat) : Nat :=
  ds.foldl (fun a d => a * base + d) 0

/-- JS `parseInt(s)` with no radix argument; `none` is `NaN`. -/
def jsParseInt (s : String) : Option Int :=
  let l := s.toList.dropWhile isSpaceJS
  let signAndRest : Int × List Char :=
    match l with
    | '-' :: rest => (-1, rest)
    | '+' :: rest => (1, rest)
    | _ => (1, l)
  let sign := signAndRest.1
  match signAndRest.2 with
  | '0' :: c :: rest =>
    if c = 'x' ∨ c = 'X' then
      let hex := (rest.map hexDigitVal).takeWhile Option.isSome
      if hex.isEmpty then none
      else some (sign * digitsToNat 16 (hex.map (fun o => o.getD 0)))
    else
      let ds := (('0' :: c :: rest).takeWhile Char.isDigit).map (fun d => d.toNat - '0'.toNat)
      some (sign * digitsToNat 10 ds)
  | l2 =>
    let ds := (l2.takeWhile Char.isDigit).map (fun d => d.toNat - '0'.toNat)
    if ds.isEmpty then none else some (sign * digitsToNat 10 ds)

/-- Source: `parseInt(x) || dflt`; `NaN` and `0` fall back to the default. -/
def jsParseIntOr (s : String) (dflt : Int) : Int :=
  match jsParseInt s with
  | none => dflt
  | some n => if n = 0 then dflt else n

/-- Relative-index clamping of `Array.prototype.slice`. -/
def jsSliceIndex (len i : Int) : Int :=
  if i < 0 then max (len + i) 0 else min i len

/-- JS `arr.slice(s, e)`. -/
def jsSlice {α : Type} (l : List α) (s e : Int) : List α :=
  let len : Int := l.length
  let s' := jsSliceIndex len s
  let e' := jsSliceIndex len e
  (l.drop s'.toNat).take (e' - s').toNat

/-- The `meta` object of the listing response. -/
structure LeadsMeta where
  count : Nat
  offset : Int
  limit : Int
  hasMore : Bool
  total : Nat
  deriving Repr, DecidableEq

/-- The pagination section of the leads listing handler (secure-leads-api.js
lines 152-172): parse `limit` and `offset` with silent fallbacks, slice the
filtered leads, and build `meta`.  The query-string defaults (`'20'`,
`'0'`) apply when the parameters are absent. -/
def leadsPagination (filteredLeads : List StoredLead)
    (limit offset : Option String) : List StoredLead × LeadsMeta :=
  let limitStr := limit.getD "20"
  let offsetStr := offset.getD "0"
  let limitNum := jsParseIntOr limitStr 20
  let offsetNum := jsParseIntOr offsetStr 0
  let paginatedLeads := jsSlice filteredLeads offsetNum (offsetNum + limitNum)
  (paginatedLeads,
   { count := paginatedLeads.length
     offset := offsetNum
     limit := limitNum
     hasMore := decide (offsetNum + limitNum < (filteredLeads.length : Int))
     total := filteredLeads.length })

/-- The three `DEMO_LEADS` records of secure-leads-api.js (lines 5-68),
`created_at` in Unix milliseconds. -/
def DEMO_LEADS : List StoredLead :=
  [{ id := 1, firstName := "John", lastName := "Smith",
     email := "john.smith@email.com", phone := "(555) 123-4567",
     address := "123 Main Street, Charlotte, NC 28202", zipCode := "28202",
     propertyType := "house", timeline := "asap",
     details := some "Large estate sale with antique furniture, jewelry collection, and household items. Family moving out of state.",
     photos := some ["https://res.cloudinary.com/demo/image/upload/v1234567890/sample.jpg",
                     "https://res.cloudinary.com/demo/image/upload/v1234567891/sample2.jpg"],
     dateSubmitted := "2024-01-15", price := some (3999 / 100),
     exclusivePurchasedBy := none, exclusivePurchaseDate := none,
     created_at := 1705312800000 },
   { id := 2, firstName := "Mary", lastName := "Johnson",
     email := "mary.johnson@email.com", phone := "(555) 987-6543",
     address := "456 Oak Avenue, Huntersville, NC 28078", zipCode := "28078",
     propertyType := "condo", timeline := "month",
     details := some "Downsizing sale with furniture, electronics, and collectibles. Need professional estate sale company.",
     photos := some ["https://res.cloudinary.com/demo/image/upload/v1234567892/sample3.jpg"],
     dateSubmitted := "2024-01-14", price := some (3999 / 100),
     exclusivePurchasedBy := none, exclusivePurchaseDate := none,
     created_at := 1705246200000 },
   { id := 3, firstName := "Robert", lastName := "Williams",
     email := "bob.williams@email.com", phone := "(555) 456-7890",
     address := "789 Pine Street, Matthews, NC 28105", zipCode := "28105",
     propertyType := "house", timeline := "flexible",
     details := some "Complete household contents including tools, furniture, and vintage items. Timeline is flexible.",
     photos := some [],
     dateSubmitted := "2024-01-13", price := some (3999 / 100),
     exclusivePurchasedBy := none, exclusivePurchaseDate := none,
     created_at := 1705137300000 }]

/-! ## Concrete fixtures used by witnesses and counterexamples -/

/-- A caller with an active subscription. -/
def demoActiveUser : AuthUser :=
  { userId := 1, email := "demo@estatesales.com",
    companyName := "Demo Estate Sales", subscriptionStatus := "active" }

/-- A caller without an active subscription. -/
def demoNoSubUser : AuthUser :=
  { userId := 2, email := "trial@estatesales.com",
    companyName := "Trial Estate Sales", subscriptionStatus := "none" }

/-- The first demo lead (id 1). -/
def demoLeadOne : StoredLead :=
  { id := 1, firstName := "John", lastName := "Smith",
    email := "john.smith@email.com", phone := "(555) 123-4567",
    address := "123 Main Street, Charlotte, NC 28202", zipCode := "28202",
    propertyType := "house", timeline := "asap",
    details := some "Large estate sale with antique furniture, jewelry collection, and household items. Family moving out of state.",
    photos := some ["https://res.cloudinary.com/demo/image/upload/v1234567890/sample.jpg",
                    "https://res.cloudinary.com/demo/image/upload/v1234567891/sample2.jpg"],
    dateSubmitted := "2024-01-15", price := some (3999 / 100),
    exclusivePurchasedBy := none, exclusivePurchaseDate := none,
    created_at := 1705312800000 }

/-- An unverified company holding verification token `ABCDEFGHIJKLMNOP`. -/
def demoPendingCompany : Company :=
  { id := 1, email := "owner@acme.co", company_name := "Acme Estates",
    first_name := "Ann", email_verified := false,
    verification_token := some "ABCDEFGHIJKLMNOP",
    account_status := "pending_verification", created_at := 0 }

/-- The record `demoPendingCompany` after successful verification. -/
def demoVerifiedCompany : Company :=
  { id := 1, email := "owner@acme.co", company_name := "Acme Estates",
    first_name := "Ann", email_verified := true,
    verification_token := none,
    account_status := "email_verified", created_at := 0 }

/-! # Theorems -/

/-- Claim C1: For every lead record and every authenticated caller, the lead
projection includes the five raw contact fields exactly when the caller's
`subscriptionStatus` is `active` and the lead has no exclusive buyer
recorded (JS truthiness of `exclusivePurchasedBy`); in every other case all
five fields are the fixed placeholder values — never a mix, and the
projection is a total function (never an error). -/
theorem sanitizeLead_contact_all_or_nothing (now : Int) (lead : StoredLead)
    (user : AuthUser) :
    (user.subscriptionStatus = "active" ∧ jsTruthyStr lead.exclusivePurchasedBy = false →
      contactFields (sanitizeLead now lead user) = rawContactFields lead) ∧
    (¬ (user.subscriptionStatus = "active" ∧ jsTruthyStr lead.exclusivePurchasedBy = false) →
      contactFields (sanitizeLead now lead user) = placeholderContactFields) := by
  constructor
  · rintro ⟨h1, h2⟩
    simp [sanitizeLead, contactFields, rawContactFields, hasContactAccess, h1, h2]
  · intro h
    have haccess : hasContactAccess user lead = false := by
      by_cases h1 : user.subscriptionStatus = "active"
      · have h2 : jsTruthyStr lead.exclusivePurchasedBy = true := by
          cases hb : jsTruthyStr lead.exclusivePurchasedBy
          · exact absurd ⟨h1, hb⟩ h
          · rfl
        simp [hasContactAccess, h2]
      · simp [hasContactAccess, h1]
    simp [sanitizeLead, contactFields, placeholderContactFields, haccess]

/-- Witness for C1: the first demo lead shown to an active subscriber and
to a non-subscriber. -/
theorem sanitizeLead_contact_all_or_nothing_witness :
    contactFields (sanitizeLead 1705312800000 demoLeadOne demoActiveUser) =
      rawContactFields demoLeadOne ∧
    contactFields (sanitizeLead 1705312800000 demoLeadOne demoNoSubUser) =
      placeholderContactFields :=
  ⟨(sanitizeLead_contact_all_or_nothing 1705312800000 demoLeadOne demoActiveUser).1
      (by constructor <;> rfl),
   (sanitizeLead_contact_all_or_nothing 1705312800000 demoLeadOne demoNoSubUser).2
      (by intro h; exact absurd h.1 (by decide))⟩

/-- Claim C2: `isInExclusiveWindow` is true exactly when `now - created_at`
is strictly below 24 hours and no exclusive buyer is recorded; and it is
monotone: with non-decreasing time, an unchanged submission time and the
one-way exclusive-purchase transition, once it is false it stays false. -/
theorem isInExclusiveWindow_iff_and_monotone :
    (∀ (now : Int) (lead : StoredLead),
      isInExclusiveWindow now lead = true ↔
        now - lead.created_at < exclusiveWindowMs ∧
        jsTruthyStr lead.exclusivePurchasedBy = false) ∧
    (∀ (n1 n2 : Int) (l1 l2 : StoredLead), n1 ≤ n2 →
      l1.created_at = l2.created_at →
      (jsTruthyStr l1.exclusivePurchasedBy = true →
        jsTruthyStr l2.exclusivePurchasedBy = true) →
      isInExclusiveWindow n1 l1 = false → isInExclusiveWindow n2 l2 = false) := by
  constructor
  · intro now lead
    simp [isInExclusiveWindow]
  · intro n1 n2 l1 l2 hle hc hbuyer h1
    cases hb2 : jsTruthyStr l2.exclusivePurchasedBy with
    | true => simp [isInExclusiveWindow, hb2]
    | false =>
      have hb1 : jsTruthyStr l1.exclusivePurchasedBy = false := by
        cases hb1 : jsTruthyStr l1.exclusivePurchasedBy
        · rfl
        · exact absurd (hbuyer hb1) (by simp [hb2])
      simp [isInExclusiveWindow, exclusiveWindowMs, hb1] at h1
      simp [isInExclusiveWindow, exclusiveWindowMs, hb2]
      omega

/-- Witness for C2: applied at the first demo lead at two concrete times
(inside, then past, the 24-hour window). -/
theorem isInExclusiveWindow_iff_and_monotone_witness :
    (isInExclusiveWindow 1705312800000 demoLeadOne = true ↔
      (1705312800000 : Int) - demoLeadOne.created_at < exclusiveWindowMs ∧
      jsTruthyStr demoLeadOne.exclusivePurchasedBy = false) ∧
    isInExclusiveWindow 1705500000000 demoLeadOne = false :=
  ⟨isInExclusiveWindow_iff_and_monotone.1 1705312800000 demoLeadOne,
   isInExclusiveWindow_iff_and_monotone.2 1705420800000 1705500000000
      demoLeadOne demoLeadOne (by decide) rfl (fun h => h) (by decide)⟩

/-- Claim C9: The lead projection is total: it always produces the full
output record, with `details` defaulting to the empty string when absent,
`photos` defaulting to the empty list when the stored value is not an
array, and `price` defaulting to 39.99 when the stored price is missing,
`null`, or zero; the always-visible fields are copied verbatim. -/
theorem sanitizeLead_total_with_defaults (now : Int) (lead : StoredLead)
    (user : AuthUser) :
    (sanitizeLead now lead user).details = lead.details.getD "" ∧
    (sanitizeLead now lead user).photos = lead.photos.getD [] ∧
    (sanitizeLead now lead user).price = jsPriceOrDefault lead.price ∧
    ((lead.price = none ∨ lead.price = some 0) →
      (sanitizeLead now lead user).price = defaultLeadPrice) ∧
    (sanitizeLead now lead user).id = lead.id ∧
    (sanitizeLead now lead user).propertyType = lead.propertyType ∧
    (sanitizeLead now lead user).timeline = lead.timeline ∧
    (sanitizeLead now lead user).zipCode = lead.zipCode ∧
    (sanitizeLead now lead user).dateSubmitted = lead.dateSubmitted ∧
    (sanitizeLead now lead user).exclusivePurchasedBy = lead.exclusivePurchasedBy ∧
    (sanitizeLead now lead user).exclusivePurchaseDate = lead.exclusivePurchaseDate := by
  refine ⟨rfl, rfl, rfl, ?_, rfl, rfl, rfl, rfl, rfl, rfl, rfl⟩
  rintro (h | h) <;> simp [sanitizeLead, jsPriceOrDefault, h]

/-- Witness for C9: a stored lead with missing details, a non-array photo
value and a zero price projects to the defaults. -/
theorem sanitizeLead_total_with_defaults_witness :
    (sanitizeLead 0 {demoLeadOne with details := none, photos := none, price := some 0}
        demoActiveUser).price = defaultLeadPrice :=
  (sanitizeLead_total_with_defaults 0
      {demoLeadOne with details := none, photos := none, price := some 0}
      demoActiveUser).2.2.2.1 (Or.inr rfl)

/-- A list is a prefix of itself followed by anything. -/
theorem listIsPrefixOf_append_self (p s : List Char) :
    listIsPrefixOf p (p ++ s) = true := by
  induction p with
  | nil => rfl
  | cons c cs ih => simp [listIsPrefixOf, ih]

/-- Dropping the 7 characters of `Bearer ` from `Bearer tok` leaves
`tok`. -/
theorem bearer_drop_seven (tok : String) :
    String.mk (("Bearer " ++ tok).toList.drop 7) = tok := by
  have h : ("Bearer " ++ tok).toList = "Bearer ".toList ++ tok.toList :=
    String.data_append "Bearer " tok
  rw [h]
  have h7 : "Bearer ".toList.length = 7 := rfl
  rw [← h7, List.drop_left]
  cases tok
  rfl

/-- Claim C5: Token verification on the protected leads endpoint follows the
spec's failure taxonomy: with the external `jsonwebtoken.verify` modelled
as an oracle that yields the decoded payload exactly when the signature
checks and the payload decodes, a presented bearer token fails as
`invalidToken` when the oracle rejects it, as `tokenExpired` when the
embedded `exp` has passed, as `subscriptionRequired` when the decoded
`subscriptionStatus` is not `active`, and otherwise the handler returns the
decoded claims. -/
theorem authenticateRequest_taxonomy (verify : String → Option TokenClaims)
    (tok : String) (nowSec : Int) :
    (verify tok = none →
      authenticateRequest verify (some ("Bearer " ++ tok)) nowSec = .invalidToken) ∧
    (∀ d, verify tok = some d →
      (d.exp < nowSec →
        authenticateRequest verify (some ("Bearer " ++ tok)) nowSec = .tokenExpired) ∧
      (¬ d.exp < nowSec → d.subscriptionStatus ≠ "active" →
        authenticateRequest verify (some ("Bearer " ++ tok)) nowSec = .subscriptionRequired) ∧
      (¬ d.exp < nowSec → d.subscriptionStatus = "active" →
        authenticateRequest verify (some ("Bearer " ++ tok)) nowSec =
          .ok { userId := d.userId, email := d.email, companyName := d.companyName,
                subscriptionStatus := d.subscriptionStatus })) := by
  have hpre : jsStartsWith ("Bearer " ++ tok) "Bearer " = true := by
    have h : ("Bearer " ++ tok).toList = "Bearer ".toList ++ tok.toList :=
      String.data_append "Bearer " tok
    unfold jsStartsWith
    rw [h]
    exact listIsPrefixOf_append_self "Bearer ".toList tok.toList
  constructor
  · intro hnone
    simp [authenticateRequest, hpre, bearer_drop_seven, hnone]
  · intro d hsome
    refine ⟨?_, ?_, ?_⟩
    · intro hexp
      simp [authenticateRequest, hpre, bearer_drop_seven, hsome, hexp]
    · intro hexp hsub
      simp [authenticateRequest, hpre, bearer_drop_seven, hsome, hexp, hsub]
    · intro hexp hsub
      simp [authenticateRequest, hpre, bearer_drop_seven, hsome, hexp, hsub]

/-- Witness for C5: a concrete oracle, exercised on a rejected token, an
expired token, a non-active subscription and a fully valid token. -/
theorem authenticateRequest_taxonomy_witness :
    (authenticateRequest (fun _ => none) (some ("Bearer " ++ "BAD")) 50 =
      .invalidToken) ∧
    (authenticateRequest
        (fun _ => some { userId := 1, email := "e@x.co", companyName := "Acme",
                         subscriptionStatus := "active", iat := 0, exp := 40 })
        (some ("Bearer " ++ "T")) 50 = .tokenExpired) ∧
    (authenticateRequest
        (fun _ => some { userId := 1, email := "e@x.co", companyName := "Acme",
                         subscriptionStatus := "none", iat := 0, exp := 100 })
        (some ("Bearer " ++ "T")) 50 = .subscriptionRequired) ∧
    (authenticateRequest
        (fun _ => some { userId := 1, email := "e@x.co", companyName := "Acme",
                         subscriptionStatus := "active", iat := 0, exp := 100 })
        (some ("Bearer " ++ "T")) 50 =
      .ok { userId := 1, email := "e@x.co", companyName := "Acme",
            subscriptionStatus := "active" }) :=
  ⟨(authenticateRequest_taxonomy (fun _ => none) "BAD" 50).1 rfl,
   ((authenticateRequest_taxonomy _ "T" 50).2 _ rfl).1 (by decide),
   ((authenticateRequest_taxonomy _ "T" 50).2 _ rfl).2.1 (by decide) (by decide),
   ((authenticateRequest_taxonomy _ "T" 50).2 _ rfl).2.2 (by decide) rfl⟩

/-- Unfolding equation of `runRateLimit` on a cons cell. -/
theorem runRateLimit_cons (m : Nat) (w t : Int) (ts : List Int) (st : Option RLEntry) :
    runRateLimit m w (t :: ts) st =
      ((rateLimitStep m w t st).1 ::
        (runRateLimit m w ts (some (rateLimitStep m w t st).2)).1,
       (runRateLimit m w ts (some (rateLimitStep m w t st).2)).2) := rfl

/-- Helper for C6: a run of in-window calls starting at count `c` with
`c + length ≤ max` is fully allowed; appending one more in-window call once
the count has reached `max` is rejected. -/
theorem runRateLimit_fills_then_rejects (m : Nat) (w : Int) (tLast r : Int)
    (hL : tLast ≤ r) :
    ∀ (mid : List Int) (c : Nat), c + mid.length = m → (∀ t ∈ mid, t ≤ r) →
      (runRateLimit m w (mid ++ [tLast]) (some ⟨c, r⟩)).1 =
        List.replicate mid.length true ++ [false] := by
  intro mid
  induction mid with
  | nil =>
    intro c hc _
    have hcm : m ≤ c := by simp at hc; omega
    simp [runRateLimit, rateLimitStep, not_lt.mpr hL, hcm]
  | cons t ts ih =>
    intro c hc hmem
    have ht : t ≤ r := hmem t (List.mem_cons_self t ts)
    have hlt : c < m := by simp at hc; omega
    simp only [List.cons_append, runRateLimit, rateLimitStep,
      if_neg (not_lt.mpr ht), if_neg (not_le.mpr hlt)]
    have := ih (c + 1) (by simp at hc ⊢; omega)
      (fun x hx => hmem x (List.mem_cons_of_mem t hx))
    simp [this, List.replicate_succ]

/-- Claim C6: The fixed-window rate limiter: first use of a key initializes
`count = 1` with reset time `now + window` and allows; a use at or before
the reset time is allowed exactly when the count is below the maximum (and
then increments it); hence the `(N+1)`-th call within one window from the
same key is rejected; and the first call after the window expires is
allowed and reinitializes the counter. -/
theorem rateLimitStep_fixed_window (m : Nat) (w : Int) :
    (∀ now, rateLimitStep m w now none = (true, ⟨1, now + w⟩)) ∧
    (∀ now e, now ≤ e.resetTime →
      rateLimitStep m w now (some e) =
        if e.count < m then (true, ⟨e.count + 1, e.resetTime⟩) else (false, e)) ∧
    (∀ now e, now > e.resetTime →
      rateLimitStep m w now (some e) = (true, ⟨1, now + w⟩)) ∧
    (∀ t1 mid tLast, mid.length + 1 = m →
      (∀ t ∈ mid, t ≤ t1 + w) → tLast ≤ t1 + w →
      (runRateLimit m w (t1 :: mid ++ [tLast]) none).1 =
        List.replicate m true ++ [false]) := by
  refine ⟨fun now => rfl, ?_, ?_, ?_⟩
  · intro now e hle
    by_cases hcm : e.count < m
    · simp [rateLimitStep, not_lt.mpr hle, not_le.mpr hcm, hcm]
    · simp [rateLimitStep, not_lt.mpr hle, not_lt.mp hcm, hcm]
  · intro now e hgt
    simp [rateLimitStep, hgt]
  · intro t1 mid tLast hm hmid hLast
    have h1 : rateLimitStep m w t1 none = (true, ⟨1, t1 + w⟩) := rfl
    have h2 := runRateLimit_fills_then_rejects m w tLast (t1 + w) hLast mid 1 (by omega) hmid
    rw [List.cons_append, runRateLimit_cons, h1]
    simp [h2]
    simp [← hm, List.replicate_succ]

/-- Witness for C6: max 3 per window of 100 — three calls fill the window,
the fourth is rejected, and a later call reinitializes. -/
theorem rateLimitStep_fixed_window_witness :
    (rateLimitStep 3 100 5 none = (true, ⟨1, 105⟩)) ∧
    (rateLimitStep 3 100 50 (some ⟨1, 105⟩) =
      if (1 : Nat) < 3 then (true, ⟨2, 105⟩) else (false, ⟨1, 105⟩)) ∧
    (rateLimitStep 3 100 200 (some ⟨3, 105⟩) = (true, ⟨1, 300⟩)) ∧
    ((runRateLimit 3 100 (5 :: [20, 60] ++ [100]) none).1 =
      List.replicate 3 true ++ [false]) :=
  ⟨(rateLimitStep_fixed_window 3 100).1 5,
   (rateLimitStep_fixed_window 3 100).2.1 50 ⟨1, 105⟩ (by decide),
   (rateLimitStep_fixed_window 3 100).2.2.1 200 ⟨3, 105⟩ (by decide),
   (rateLimitStep_fixed_window 3 100).2.2.2 5 [20, 60] 100 rfl (by decide) (by decide)⟩

/-- Helper for C10: a JS slice of nonnegative width `lim` has at most `lim`
elements. -/
theorem jsSlice_length_le {α : Type} (l : List α) (s lim : Int) (h : 0 ≤ lim) :
    ((jsSlice l s (s + lim)).length : Int) ≤ lim := by
  simp only [jsSlice, jsSliceIndex, List.length_take, List.length_drop]
  split_ifs <;> push_cast [Nat.cast_min] <;> omega

/-- Claim C10 amended: Pagination parsing uses silent fallbacks: `limit`
becomes 20 and `offset` becomes 0 whenever the supplied string is
non-numeric (`parseInt` yields `NaN`) or parses to 0; the returned data is
`filteredLeads.slice(offset, offset + limit)`; when the effective limit is
nonnegative — in particular whenever the fallback applies or the supplied
limit parses positive — the data length never exceeds it (a negative parsed
limit is passed through as a negative slice end index and can select more
elements than the negative limit); and `meta.hasMore` is true exactly when
`offset + limit` is strictly below the number of filtered leads. -/
theorem leadsPagination_spec (filtered : List StoredLead) (ls os : String) :
    (jsParseInt ls = none ∨ jsParseInt ls = some 0 →
      (leadsPagination filtered (some ls) (some os)).2.limit = 20) ∧
    (jsParseInt os = none ∨ jsParseInt os = some 0 →
      (leadsPagination filtered (some ls) (some os)).2.offset = 0) ∧
    ((leadsPagination filtered (some ls) (some os)).1 =
      jsSlice filtered (jsParseIntOr os 0) (jsParseIntOr os 0 + jsParseIntOr ls 20)) ∧
    (0 ≤ jsParseIntOr ls 20 →
      (((leadsPagination filtered (some ls) (some os)).1.length : Int) ≤
        jsParseIntOr ls 20)) ∧
    ((leadsPagination filtered (some ls) (some os)).2.hasMore = true ↔
      jsParseIntOr os 0 + jsParseIntOr ls 20 < (filtered.length : Int)) := by
  refine ⟨?_, ?_, rfl, ?_, ?_⟩
  · rintro (h | h) <;> simp [leadsPagination, jsParseIntOr, h]
  · rintro (h | h) <;> simp [leadsPagination, jsParseIntOr, h]
  · intro h
    exact jsSlice_length_le filtered (jsParseIntOr os 0) (jsParseIntOr ls 20) h
  · simp [leadsPagination]

/-- Witness for C10: a non-numeric limit falls back to 20, offset `0`
falls back to 0, and a parsed limit of 2 bounds the returned page. -/
theorem leadsPagination_spec_witness :
    (leadsPagination DEMO_LEADS (some "abc") (some "0")).2.limit = 20 ∧
    (leadsPagination DEMO_LEADS (some "abc") (some "0")).2.offset = 0 ∧
    (((leadsPagination DEMO_LEADS (some "2") (some "1")).1.length : Int) ≤
      jsParseIntOr "2" 20) :=
  ⟨(leadsPagination_spec DEMO_LEADS "abc" "0").1 (Or.inl (by decide)),
   (leadsPagination_spec DEMO_LEADS "abc" "0").2.1 (Or.inr (by decide)),
   (leadsPagination_spec DEMO_LEADS "2" "1").2.2.2.1 (by decide)⟩

/-- Claim C10 counterexample: With the three demo leads, `limit = "-1"` and
`offset = "0"`, `parseInt` yields `-1` (truthy, so no fallback), the slice
returns 2 leads, and 2 exceeds the effective limit −1 — refuting the
claim's 'its length never exceeds the effective limit'. -/
theorem leadsPagination_negative_limit_counterexample :
    (leadsPagination DEMO_LEADS (some "-1") (some "0")).2.limit = -1 ∧
    (leadsPagination DEMO_LEADS (some "-1") (some "0")).1.length = 2 ∧
    ¬ (((leadsPagination DEMO_LEADS (some "-1") (some "0")).1.length : Int) ≤
        (leadsPagination DEMO_LEADS (some "-1") (some "0")).2.limit) := by
  refine ⟨by decide, by decide, by decide⟩

/-- Claim C3 counterexample: Verifying a valid token succeeds and clears the
stored token, but presenting the same token a second time returns the 404
not-found response, not the 200 already-verified response the claim
requires. -/
theorem verify_email_replay_counterexample :
    (verifyEmailHandler "ABCDEFGHIJKLMNOP" 1000 [demoPendingCompany]).1 = .verified ∧
    (verifyEmailHandler "ABCDEFGHIJKLMNOP" 1000 [demoPendingCompany]).2 =
      [demoVerifiedCompany] ∧
    (verifyEmailHandler "ABCDEFGHIJKLMNOP" 2000
        (verifyEmailHandler "ABCDEFGHIJKLMNOP" 1000 [demoPendingCompany]).2).1 =
      .notFound ∧
    VerifyEmailResp.notFound ≠ VerifyEmailResp.alreadyVerified := by
  refine ⟨by decide, by decide, by decide, by decide⟩

/-- Claim C3 amended: After a first successful presentation of a valid
verification token (held by at most one company), the stored token is
cleared and `email_verified` is set; consequently a second presentation of
the same token finds no matching account and yields the 404
invalid-or-expired response (the 200 already-verified response would
require the token still to match an account, which the success path makes
impossible). -/
theorem verify_email_first_success_clears_token (tok : String) (n1 n2 : Int)
    (store : List Company)
    (huniq : ∀ c1 ∈ store, ∀ c2 ∈ store,
      c1.verification_token = some tok → c2.verification_token = some tok → c1 = c2)
    (hfirst : (verifyEmailHandler tok n1 store).1 = .verified) :
    (∀ d ∈ (verifyEmailHandler tok n1 store).2, d.verification_token ≠ some tok) ∧
    findCompanyByToken tok (verifyEmailHandler tok n1 store).2 = none ∧
    (verifyEmailHandler tok n2 (verifyEmailHandler tok n1 store).2).1 = .notFound := by
  by_cases hformat : verifyTokenFormatOk tok
  · cases hfind : findCompanyByToken tok store with
    | none => simp [verifyEmailHandler, hformat, hfind] at hfirst
    | some c =>
      by_cases hver : c.email_verified
      · simp [verifyEmailHandler, hformat, hfind, hver] at hfirst
      · by_cases hage : n1 - c.created_at > verifyMaxAgeMs
        · simp [verifyEmailHandler, hformat, hfind, hver, hage] at hfirst
        · have hstore2 : (verifyEmailHandler tok n1 store).2 =
              updateCompanyVerification c.id store := by
            simp [verifyEmailHandler, hformat, hfind, hver, hage]
          have hcmem : c ∈ store := by
            have := List.mem_of_find?_eq_some hfind
            exact this
          have hctok : c.verification_token = some tok := by
            have := List.find?_some hfind
            simpa using this
          have hcleared : ∀ d ∈ updateCompanyVerification c.id store,
              d.verification_token ≠ some tok := by
            intro d hd
            rcases List.mem_map.mp hd with ⟨c0, hc0mem, hc0eq⟩
            by_cases hid : c0.id = c.id
            · rw [← hc0eq]
              simp [hid]
            · rw [← hc0eq]
              simp only [if_neg hid]
              intro hc0tok
              exact hid (congrArg Company.id (huniq c0 hc0mem c hcmem hc0tok hctok))
          rw [hstore2]
          have hnone : findCompanyByToken tok (updateCompanyVerification c.id store) =
              none := by
            rw [findCompanyByToken, List.find?_eq_none]
            intro d hd
            simp only [beq_iff_eq]
            exact hcleared d hd
          exact ⟨hcleared, hnone, by simp [verifyEmailHandler, hformat, hnone]⟩
  · simp [verifyEmailHandler, hformat] at hfirst

/-- Witness for the amended C3: the concrete pending company. -/
theorem verify_email_first_success_clears_token_witness :
    findCompanyByToken "ABCDEFGHIJKLMNOP"
      (verifyEmailHandler "ABCDEFGHIJKLMNOP" 1000 [demoPendingCompany]).2 = none ∧
    (verifyEmailHandler "ABCDEFGHIJKLMNOP" 2000
        (verifyEmailHandler "ABCDEFGHIJKLMNOP" 1000 [demoPendingCompany]).2).1 =
      .notFound :=
  ⟨(verify_email_first_success_clears_token "ABCDEFGHIJKLMNOP" 1000 2000
      [demoPendingCompany] (by decide) (by decide)).2.1,
   (verify_email_first_success_clears_token "ABCDEFGHIJKLMNOP" 1000 2000
      [demoPendingCompany] (by decide) (by decide)).2.2⟩

/-- Claim C4 counterexample: Two resend-verification runs differing only in
whether the account exists produce observably different responses: with no
account the body is the generic message, with an existing unverified
account it is the distinct sent-successfully message carrying
`verificationUrl` — so a caller can distinguish account existence,
refuting the claim's indistinguishability half. -/
theorem resend_enumeration_counterexample :
    (resendHandler (some "owner@acme.co") [] [] 5 "NEWTOK" "https://site").1 =
      .genericOk ∧
    (resendHandler (some "owner@acme.co") [demoPendingCompany] [] 5 "NEWTOK"
        "https://site").1 =
      .sentOk "https://site/company-verify-email.html?token=NEWTOK" ∧
    ResendResp.sentOk "https://site/company-verify-email.html?token=NEWTOK" ≠
      ResendResp.genericOk := by
  refine ⟨by decide, by decide, by decide⟩

/-- Claim C4 amended: For every syntactically valid email, when no account
with that (cleaned) email exists the response is always the HTTP 200
generic message, never a 429 and never an error, and the store and
rate-limit state are untouched; however the observable response does
distinguish account existence, since an existing unverified account
produces a different success message (with `verificationUrl`) or a 429. -/
theorem resend_absent_account_generic (e : String) (store : List Company)
    (attempts : List Int) (now : Int) (newToken baseUrl : String)
    (hne : e ≠ "")
    (hshape : emailShapeOk (jsToLower (jsTrim e)) = true)
    (habsent : findCompanyByEmail (jsToLower (jsTrim e)) store = none) :
    resendHandler (some e) store attempts now newToken baseUrl =
      (.genericOk, store, attempts) := by
  simp [resendHandler, hne, hshape, habsent]

/-- Witness for the amended C4. -/
theorem resend_absent_account_generic_witness :
    resendHandler (some "owner@acme.co") [] [7] 99 "NEWTOK" "https://site" =
      (.genericOk, [], [7]) :=
  resend_absent_account_generic "owner@acme.co" [] [7] 99 "NEWTOK" "https://site"
    (by decide) (by decide) (by decide)

/-- Helper for C7: looking a company up by email after a token update finds
the updated image of the original hit (the update preserves `email`). -/
theorem findCompanyByEmail_update (e : String) (cid : Nat) (tok : String)
    (store : List Company) :
    findCompanyByEmail e (updateVerificationToken cid tok store) =
      (findCompanyByEmail e store).map
        (fun c => if c.id = cid then { c with verification_token := some tok } else c) := by
  induction store with
  | nil => rfl
  | cons c0 rest ih =>
    have hemail :
        ((if c0.id = cid then { c0 with verification_token := some tok } else c0) :
          Company).email = c0.email := by
      split <;> rfl
    by_cases h : c0.email == e
    · simp [findCompanyByEmail, updateVerificationToken, List.find?_cons_of_pos, hemail, h]
    · simp only [findCompanyByEmail, updateVerificationToken, List.map_cons] at ih ⊢
      rw [List.find?_cons_of_neg, List.find?_cons_of_neg]
      · exact ih
      · simpa using h
      · simpa [hemail] using h

/-- Helper for C7: `Math.ceil(x/1000)` is positive for positive `x`. -/
theorem jsCeilDivThousand_pos (x : Int) (h : 1 ≤ x) : 0 < jsCeilDivThousand x := by
  unfold jsCeilDivThousand
  rw [Int.fdiv_eq_ediv _ (by norm_num)]
  omega

/-- Helper for C7: fewer recorded attempts than the maximum always pass the
resend rate check. -/
theorem resendCheckRateLimit_allowed_of_short (now : Int) (attempts : List Int)
    (h : attempts.length < resendMaxAttempts) :
    resendCheckRateLimit now attempts = .allowed := by
  have hle := List.length_filter_le (fun t => decide (now - t < resendWindowMs)) attempts
  simp only [resendCheckRateLimit]
  rw [if_neg]
  omega

/-- Helper for C7: the success path of the resend handler for an existing
unverified account under an allowing rate check. -/
theorem resendHandler_sent (em : String) (store : List Company) (c : Company)
    (attempts : List Int) (now : Int) (tok baseUrl : String)
    (hne : em ≠ "") (hshape : emailShapeOk (jsToLower (jsTrim em)) = true)
    (hfound : findCompanyByEmail (jsToLower (jsTrim em)) store = some c)
    (hunver : c.email_verified = false)
    (hallowed : resendCheckRateLimit now attempts = .allowed) :
    resendHandler (some em) store attempts now tok baseUrl =
      (.sentOk (baseUrl ++ "/company-verify-email.html?token=" ++ tok),
       updateVerificationToken c.id tok store, attempts ++ [now]) := by
  simp [resendHandler, hne, hshape, hfound, hunver, hallowed, recordRateLimitAttempt]

/-- Helper for C7: the 429 path of the resend handler for an existing
unverified account under a blocking rate check. -/
theorem resendHandler_blocked (em : String) (store : List Company) (c : Company)
    (attempts : List Int) (now : Int) (tok baseUrl : String) (retryAfter : Int)
    (hne : em ≠ "") (hshape : emailShapeOk (jsToLower (jsTrim em)) = true)
    (hfound : findCompanyByEmail (jsToLower (jsTrim em)) store = some c)
    (hunver : c.email_verified = false)
    (hblocked : resendCheckRateLimit now attempts = .blocked retryAfter) :
    resendHandler (some em) store attempts now tok baseUrl =
      (.rateLimited retryAfter, store, attempts) := by
  simp [resendHandler, hne, hshape, hfound, hunver, hblocked]

/-- Claim C7: For an unverified account email, three resend requests within
the 15-minute window succeed, and the fourth request inside the same
window is rejected with the 429 response carrying a strictly positive
`retryAfter` equal to the ceiling of the seconds until the oldest recorded
attempt leaves the window. -/
theorem resend_fourth_call_rate_limited (store : List Company) (c : Company)
    (em : String) (t1 t2 t3 t4 : Int) (tokA tokB tokC tokD baseUrl : String)
    (hne : em ≠ "")
    (hshape : emailShapeOk (jsToLower (jsTrim em)) = true)
    (hfound : findCompanyByEmail (jsToLower (jsTrim em)) store = some c)
    (hunver : c.email_verified = false)
    (h12 : t1 ≤ t2) (h13 : t1 ≤ t3)
    (hw1 : t4 - t1 < resendWindowMs) (hw2 : t4 - t2 < resendWindowMs)
    (hw3 : t4 - t3 < resendWindowMs) :
    let r1 := resendHandler (some em) store [] t1 tokA baseUrl
    let r2 := resendHandler (some em) r1.2.1 r1.2.2 t2 tokB baseUrl
    let r3 := resendHandler (some em) r2.2.1 r2.2.2 t3 tokC baseUrl
    let r4 := resendHandler (some em) r3.2.1 r3.2.2 t4 tokD baseUrl
    (∃ u1, r1.1 = .sentOk u1) ∧ (∃ u2, r2.1 = .sentOk u2) ∧
    (∃ u3, r3.1 = .sentOk u3) ∧
    r4.1 = .rateLimited (jsCeilDivThousand (resendWindowMs - (t4 - t1))) ∧
    0 < jsCeilDivThousand (resendWindowMs - (t4 - t1)) := by
  intro r1 r2 r3 r4
  set ce := jsToLower (jsTrim em) with hce
  -- call 1: no attempts recorded yet, allowed
  have hr1 := resendHandler_sent em store c [] t1 tokA baseUrl hne hshape hfound
    hunver (resendCheckRateLimit_allowed_of_short t1 [] (by decide))
  -- the account survives the token update, still unverified
  have hfound1 : findCompanyByEmail ce (updateVerificationToken c.id tokA store) =
      some { c with verification_token := some tokA } := by
    rw [findCompanyByEmail_update, hfound]
    simp
  have hr2 := resendHandler_sent em (updateVerificationToken c.id tokA store)
    { c with verification_token := some tokA } [t1] t2 tokB baseUrl hne hshape
    hfound1 hunver (resendCheckRateLimit_allowed_of_short t2 [t1] (by simp [resendMaxAttempts]))
  have hfound2 : findCompanyByEmail ce
      (updateVerificationToken c.id tokB (updateVerificationToken c.id tokA store)) =
      some { c with verification_token := some tokB } := by
    rw [findCompanyByEmail_update, hfound1]
    simp
  have hr3 := resendHandler_sent em
    (updateVerificationToken c.id tokB (updateVerificationToken c.id tokA store))
    { c with verification_token := some tokB } [t1, t2] t3 tokC baseUrl hne hshape
    hfound2 hunver (resendCheckRateLimit_allowed_of_short t3 [t1, t2] (by simp [resendMaxAttempts]))
  have hfound3 : findCompanyByEmail ce
      (updateVerificationToken c.id tokC (updateVerificationToken c.id tokB
        (updateVerificationToken c.id tokA store))) =
      some { c with verification_token := some tokC } := by
    rw [findCompanyByEmail_update, hfound2]
    simp
  -- call 4: three in-window attempts recorded, blocked
  have hblock : resendCheckRateLimit t4 [t1, t2, t3] =
      .blocked (jsCeilDivThousand (resendWindowMs - (t4 - t1))) := by
    have hf : [t1, t2, t3].filter (fun t => decide (t4 - t < resendWindowMs)) =
        [t1, t2, t3] := by
      simp [hw1, hw2, hw3]
    simp [resendCheckRateLimit, hf, resendMaxAttempts, listMin,
      min_eq_left h12, min_eq_left h13]
  have hr4 := resendHandler_blocked em
    (updateVerificationToken c.id tokC (updateVerificationToken c.id tokB
      (updateVerificationToken c.id tokA store)))
    { c with verification_token := some tokC } [t1, t2, t3] t4 tokD baseUrl
    (jsCeilDivThousand (resendWindowMs - (t4 - t1))) hne hshape hfound3 hunver hblock
  have e1 : r1 = (.sentOk (baseUrl ++ "/company-verify-email.html?token=" ++ tokA),
      updateVerificationToken c.id tokA store, [t1]) := hr1
  have e2 : r2 = (.sentOk (baseUrl ++ "/company-verify-email.html?token=" ++ tokB),
      updateVerificationToken c.id tokB (updateVerificationToken c.id tokA store),
      [t1, t2]) := by
    show resendHandler (some em) r1.2.1 r1.2.2 t2 tokB baseUrl = _
    rw [e1]
    exact hr2
  have e3 : r3 = (.sentOk (baseUrl ++ "/company-verify-email.html?token=" ++ tokC),
      updateVerificationToken c.id tokC (updateVerificationToken c.id tokB
        (updateVerificationToken c.id tokA store)), [t1, t2, t3]) := by
    show resendHandler (some em) r2.2.1 r2.2.2 t3 tokC baseUrl = _
    rw [e2]
    exact hr3
  have e4 : r4.1 = .rateLimited (jsCeilDivThousand (resendWindowMs - (t4 - t1))) := by
    show (resendHandler (some em) r3.2.1 r3.2.2 t4 tokD baseUrl).1 = _
    rw [e3, hr4]
  refine ⟨⟨_, by rw [e1]⟩, ⟨_, by rw [e2]⟩, ⟨_, by rw [e3]⟩, e4, ?_⟩
  exact jsCeilDivThousand_pos _ (by omega)

/-- Witness for C7: four resend requests for the demo pending company at
times 0, 1, 2, 3 ms — the fourth is the 429 with positive `retryAfter`. -/
theorem resend_fourth_call_rate_limited_witness :
    (let r1 := resendHandler (some "owner@acme.co") [demoPendingCompany] [] 0 "A" "u"
     let r2 := resendHandler (some "owner@acme.co") r1.2.1 r1.2.2 1 "B" "u"
     let r3 := resendHandler (some "owner@acme.co") r2.2.1 r2.2.2 2 "C" "u"
     let r4 := resendHandler (some "owner@acme.co") r3.2.1 r3.2.2 3 "D" "u"
     r4.1 = .rateLimited (jsCeilDivThousand (resendWindowMs - (3 - 0))) ∧
     0 < jsCeilDivThousand (resendWindowMs - (3 - 0))) :=
  (resend_fourth_call_rate_limited [demoPendingCompany] demoPendingCompany
    "owner@acme.co" 0 1 2 3 "A" "B" "C" "D" "u" (by decide) (by decide) (by decide)
    (by decide) (by decide) (by decide) (by decide) (by decide) (by decide)).2.2.2

/-- Helper for C8: the firstName block appends exactly its own field's
messages to the incoming error list. -/
theorem firstNameBlock_fst (errors : List String) (x : Option String) :
    (firstNameBlock errors x).1 = errors ++ firstNameErrors x := by
  cases x with
  | none => simp [firstNameBlock, firstNameErrors]
  | some s =>
    simp only [firstNameBlock, firstNameErrors]
    split_ifs <;> simp

/-- Helper for C8, as `firstNameBlock_fst`. -/
theorem lastNameBlock_fst (errors : List String) (x : Option String) :
    (lastNameBlock errors x).1 = errors ++ lastNameErrors x := by
  cases x with
  | none => simp [lastNameBlock, lastNameErrors]
  | some s =>
    simp only [lastNameBlock, lastNameErrors]
    split_ifs <;> simp

/-- Helper for C8, as `firstNameBlock_fst`. -/
theorem emailBlock_fst (errors : List String) (x : Option String) :
    (emailBlock errors x).1 = errors ++ emailErrors x := by
  cases x with
  | none => simp [emailBlock, emailErrors]
  | some s =>
    simp only [emailBlock, emailErrors]
    split_ifs <;> simp

/-- Helper for C8, as `firstNameBlock_fst`. -/
theorem phoneBlock_fst (errors : List String) (x : Option String) :
    (phoneBlock errors x).1 = errors ++ phoneErrors x := by
  cases x with
  | none => simp [phoneBlock, phoneErrors]
  | some s =>
    simp only [phoneBlock, phoneErrors]
    split_ifs <;> simp

/-- Helper for C8, as `firstNameBlock_fst`. -/
theorem addressBlock_fst (errors : List String) (x : Option String) :
    (addressBlock errors x).1 = errors ++ addressErrors x := by
  cases x with
  | none => simp [addressBlock, addressErrors]
  | some s =>
    simp only [addressBlock, addressErrors]
    split_ifs <;> simp

/-- Helper for C8, as `firstNameBlock_fst`. -/
theorem propertyTypeBlock_fst (errors : List String) (x : Option String) :
    (propertyTypeBlock errors x).1 = errors ++ propertyTypeErrors x := by
  cases x with
  | none => simp [propertyTypeBlock, propertyTypeErrors]
  | some s =>
    simp only [propertyTypeBlock, propertyTypeErrors]
    split_ifs <;> simp

/-- Helper for C8, as `firstNameBlock_fst`. -/
theorem timelineBlock_fst (errors : List String) (x : Option String) :
    (timelineBlock errors x).1 = errors ++ timelineErrors x := by
  cases x with
  | none => simp [timelineBlock, timelineErrors]
  | some s =>
    simp only [timelineBlock, timelineErrors]
    split_ifs <;> simp

/-- Helper for C8, as `firstNameBlock_fst`. -/
theorem detailsBlock_fst (errors : List String) (x : Option String) :
    (detailsBlock errors x).1 = errors ++ detailsErrors x := by
  cases x with
  | none => simp [detailsBlock, detailsErrors]
  | some s =>
    simp only [detailsBlock, detailsErrors]
    split_ifs <;> simp

/-- Claim C8: The lead-submission validator collects all field errors and
returns them together: the error list is the concatenation, in schema
order, of per-field message lists that depend only on their own field;
each field contributes at most one message (so there is exactly one message
for each missing or invalid field, not just the first failure); and the
payload is rejected — non-empty errors — whenever any of the eight
required fields is absent or not a string (`none`), or blank after its
sanitization. -/
theorem validateLeadData_collects_all_errors (d : RawLead) :
    ((validateLeadData d).errors =
      firstNameErrors d.firstName ++ lastNameErrors d.lastName ++
      emailErrors d.email ++ phoneErrors d.phone ++ addressErrors d.address ++
      propertyTypeErrors d.propertyType ++ timelineErrors d.timeline ++
      detailsErrors d.details) ∧
    (∀ x : Option String,
      (firstNameErrors x).length ≤ 1 ∧ (lastNameErrors x).length ≤ 1 ∧
      (emailErrors x).length ≤ 1 ∧ (phoneErrors x).length ≤ 1 ∧
      (addressErrors x).length ≤ 1 ∧ (propertyTypeErrors x).length ≤ 1 ∧
      (timelineErrors x).length ≤ 1 ∧ (detailsErrors x).length ≤ 1) ∧
    ((d.firstName = none ∨ (∃ s, d.firstName = some s ∧ sanitizeTextStr s 50 = "") →
        (validateLeadData d).errors ≠ []) ∧
     (d.lastName = none ∨ (∃ s, d.lastName = some s ∧ sanitizeTextStr s 50 = "") →
        (validateLeadData d).errors ≠ []) ∧
     (d.email = none ∨ (∃ s, d.email = some s ∧ jsToLower (jsTrim s) = "") →
        (validateLeadData d).errors ≠ []) ∧
     (d.phone = none ∨ (∃ s, d.phone = some s ∧ sanitizePhone s = "") →
        (validateLeadData d).errors ≠ []) ∧
     (d.address = none ∨ (∃ s, d.address = some s ∧ sanitizeTextStr s 200 = "") →
        (validateLeadData d).errors ≠ []) ∧
     (d.propertyType = none ∨ d.propertyType = some "" →
        (validateLeadData d).errors ≠ []) ∧
     (d.timeline = none ∨ d.timeline = some "" →
        (validateLeadData d).errors ≠ []) ∧
     (d.details = none ∨ (∃ s, d.details = some s ∧ sanitizeTextStr s 2000 = "") →
        (validateLeadData d).errors ≠ [])) := by
  have heq : (validateLeadData d).errors =
      firstNameErrors d.firstName ++ lastNameErrors d.lastName ++
      emailErrors d.email ++ phoneErrors d.phone ++ addressErrors d.address ++
      propertyTypeErrors d.propertyType ++ timelineErrors d.timeline ++
      detailsErrors d.details := by
    simp [validateLeadData, firstNameBlock_fst, lastNameBlock_fst, emailBlock_fst,
      phoneBlock_fst, addressBlock_fst, propertyTypeBlock_fst, timelineBlock_fst,
      detailsBlock_fst, List.append_assoc]
  refine ⟨heq, ?_, ?_, ?_, ?_, ?_, ?_, ?_, ?_, ?_⟩
  · intro x
    refine ⟨?_, ?_, ?_, ?_, ?_, ?_, ?_, ?_⟩ <;>
      first
      | (cases x with
         | none => simp [firstNameErrors, lastNameErrors, emailErrors, phoneErrors,
             addressErrors, propertyTypeErrors, timelineErrors, detailsErrors]
         | some s =>
           simp only [firstNameErrors, lastNameErrors, emailErrors, phoneErrors,
             addressErrors, propertyTypeErrors, timelineErrors, detailsErrors]
           split_ifs <;> simp)
  · rintro (h | ⟨s, hs, hb⟩) <;> rw [heq]
    · simp [h, firstNameErrors]
    · by_cases hs0 : s = "" <;> simp [hs, hs0, firstNameErrors, hb]
  · rintro (h | ⟨s, hs, hb⟩) <;> rw [heq]
    · simp [h, lastNameErrors]
    · by_cases hs0 : s = "" <;> simp [hs, hs0, lastNameErrors, hb]
  · rintro (h | ⟨s, hs, hb⟩) <;> rw [heq]
    · simp [h, emailErrors]
    · have hempty : emailShapeOk "" = false := by decide
      by_cases hs0 : s = "" <;> simp [hs, hs0, emailErrors, hb, hempty]
  · rintro (h | ⟨s, hs, hb⟩) <;> rw [heq]
    · simp [h, phoneErrors]
    · by_cases hs0 : s = "" <;> simp [hs, hs0, phoneErrors, hb]
  · rintro (h | ⟨s, hs, hb⟩) <;> rw [heq]
    · simp [h, addressErrors]
    · by_cases hs0 : s = "" <;> simp [hs, hs0, addressErrors, hb]
  · rintro (h | h) <;> rw [heq] <;> simp [h, propertyTypeErrors, validPropertyTypes]
  · rintro (h | h) <;> rw [heq] <;> simp [h, timelineErrors, validTimelines]
  · rintro (h | ⟨s, hs, hb⟩) <;> rw [heq]
    · simp [h, detailsErrors]
    · by_cases hs0 : s = "" <;> simp [hs, hs0, detailsErrors, hb]

/-- Witness for C8: a payload missing every field is rejected with one
message per field. -/
theorem validateLeadData_collects_all_errors_witness :
    (validateLeadData
        { firstName := none, lastName := none, email := none, phone := none,
          address := none, propertyType := none, timeline := none,
          details := none, photoUrls := none }).errors ≠ [] :=
  (validateLeadData_collects_all_errors
      { firstName := none, lastName := none, email := none, phone := none,
        address := none, propertyType := none, timeline := none,
        details := none, photoUrls := none }).2.2.1 (Or.inl rfl)

end EstateSaleConnect
